import Mathlib

/-!
Verification of the `makemodel` cloud function (src/main.py).

The function receives an HTTP request, validates a JSON body holding
`taskId` and `fileExtension`, polls cloud storage for the uploaded image
blob `uploads/{taskId}.{fileExtension}` (up to 5 attempts, sleeping 2
seconds after each failed check), downloads the blob, generates a fixed
humanoid mesh with `create_humanoid`, exports it to GLB bytes, uploads the
result as `{taskId}.glb` to the output bucket, makes it public and returns
its URL.  We embed the handler as a pure function from a request and a
storage oracle (`World`) to a response together with a trace of the
storage side effects it performed.
-/

namespace MakeModel

/-- A JSON scalar value, as Python sees it after `json` parsing. -/
inductive JVal where
  | jnull : JVal
  | jbool : Bool → JVal
  | jnum : Int → JVal
  | jstr : String → JVal
deriving DecidableEq

/-- Python truthiness of a JSON scalar (`bool(v)`). -/
def truthy : JVal → Bool
  | JVal.jnull => false
  | JVal.jbool b => b
  | JVal.jnum n => n != 0
  | JVal.jstr s => s != ""

/-- Python truthiness of `dict.get` results: `None` (absent key) is falsy. -/
def truthyOpt : Option JVal → Bool
  | none => false
  | some v => truthy v

/-- Python `str()` of a JSON scalar, used by f-string interpolation. -/
def pyStr : JVal → String
  | JVal.jnull => "None"
  | JVal.jbool true => "True"
  | JVal.jbool false => "False"
  | JVal.jnum n => toString n
  | JVal.jstr s => s

/-- A parsed JSON object body: association list of keys to scalar values. -/
def JsonDict := List (String × JVal)

/-- Python `dict.get(k)`: the value under key `k`, or `None`. -/
def dictGet (k : String) : JsonDict → Option JVal
  | [] => none
  | (k2, v) :: rest => if k2 = k then some v else dictGet k rest

/-- An HTTP request as the handler observes it: the method, and the result
of `request.get_json(silent=True)` (`none` when the body is not parseable
JSON). -/
structure HttpRequest where
  method : String
  body : Option JsonDict

/-- Deployment configuration: the input and output bucket names read from
the environment at module load. -/
structure Config where
  inputBucket : String
  outputBucket : String

/-- Does `startsWithChars p cs` hold: is `p` a prefix of `cs`? -/
def startsWithChars : List Char → List Char → Bool
  | [], _ => true
  | _ :: _, [] => false
  | p :: ps, c :: cs => p = c && startsWithChars ps cs

/-- Is `p` a contiguous sublist of the second argument? -/
def hasInfixChars (p : List Char) : List Char → Bool
  | [] => startsWithChars p []
  | c :: cs => startsWithChars p (c :: cs) || hasInfixChars p cs

/-- Python `pat in s` on strings: substring containment. -/
def strContains (s pat : String) : Bool :=
  hasInfixChars pat.data s.data

/- ### The mesh model (create_cylinder / create_sphere / create_humanoid) -/

/-- A 3-vector of exact rational coordinates (the source's float literals
are all exactly representable). -/
structure Vec3 where
  x : Rat
  y : Rat
  z : Rat
deriving DecidableEq

/-- A rigid transform as built by the source: either
`trimesh.transformations.translation_matrix(v)` or
`trimesh.transformations.compose_matrix(translate=t, angles=a)`.  The
angles field stores the Euler angles divided by pi (the source only uses
multiples of `np.pi/2`), keeping the representation exact. -/
inductive PyTransform where
  | translationMatrix : Vec3 → PyTransform
  | composeMatrix : Vec3 → Vec3 → PyTransform
deriving DecidableEq

/-- A placed rigid primitive of the generated mesh. -/
inductive Prim where
  | cylinder : Rat → Rat → Option PyTransform → Prim
  | icosphere : Rat → Nat → Vec3 → Prim
deriving DecidableEq

/-- A mesh is the concatenation of placed primitives
(`trimesh.util.concatenate`). -/
abbrev Mesh := List Prim

/-- `create_cylinder(radius, height, transform)` from src/main.py: a
cylinder primitive with an optional transform applied. -/
def create_cylinder (radius height : Rat) (transform : Option PyTransform) : Prim :=
  Prim.cylinder radius height transform

/-- `create_sphere(radius, center)` from src/main.py: an icosphere with
subdivisions=3, translated to `center`. -/
def create_sphere (radius : Rat) (center : Vec3) : Prim :=
  Prim.icosphere radius 3 center

/-- `create_humanoid()` from src/main.py: head sphere, torso cylinder, two
arm cylinders, two leg cylinders, concatenated in that order. -/
def create_humanoid : Mesh :=
  let head := create_sphere 0.2 ⟨0, 0, 1.8⟩
  let torso_height : Rat := 0.8
  let torso := create_cylinder 0.3 torso_height
    (some (PyTransform.translationMatrix ⟨0, 0, 1.2 - torso_height / 2⟩))
  let arm_radius : Rat := 0.1
  let arm_height : Rat := 0.6
  let left_arm := create_cylinder arm_radius arm_height
    (some (PyTransform.composeMatrix ⟨-0.3 - arm_height / 2, 0, 1.4⟩ ⟨0, 1/2, 0⟩))
  let right_arm := create_cylinder arm_radius arm_height
    (some (PyTransform.composeMatrix ⟨0.3 + arm_height / 2, 0, 1.4⟩ ⟨0, -(1/2), 0⟩))
  let leg_radius : Rat := 0.12
  let leg_height : Rat := 0.7
  let left_leg := create_cylinder leg_radius leg_height
    (some (PyTransform.translationMatrix ⟨-0.15, 0, leg_height / 2⟩))
  let right_leg := create_cylinder leg_radius leg_height
    (some (PyTransform.translationMatrix ⟨0.15, 0, leg_height / 2⟩))
  [head, torso] ++ [left_arm, right_arm] ++ [left_leg, right_leg]

/- ### Side effects, storage oracle, responses -/

/-- An observable side effect of the handler, in the order performed. -/
inductive Event where
  | checkExists : Nat → Event
  | sleepSec : Nat → Event
  | download : Event
  | writeTmp : String → Event
  | upload : String → String → List Nat → String → Event
  | makePublic : String → String → Event
deriving DecidableEq

/-- The storage oracle: the outcome of each external call the handler may
make.  `Except.error e` means that call raises an exception whose
`str(e)` is the given message. -/
structure World where
  existsResult : Nat → Except String Bool
  downloadResult : Except String (List Nat)
  writeTmpResult : Except String Unit
  uploadResult : Except String Unit
  makePublicResult : Except String Unit
  publicUrl : String

/-- A response body: either a raw string body or a JSON object
(`json.dumps` of string-valued keys, in insertion order). -/
inductive RBody where
  | raw : String → RBody
  | json : List (String × String) → RBody
deriving DecidableEq

/-- A response triple, mirroring the Python `(body, status, headers)`. -/
structure Response where
  body : RBody
  status : Nat
  headers : List (String × String)
deriving DecidableEq

/-- The CORS preflight headers returned for OPTIONS requests. -/
def corsHeaders : List (String × String) :=
  [("Access-Control-Allow-Origin", "*"),
   ("Access-Control-Allow-Methods", "POST, GET, OPTIONS"),
   ("Access-Control-Allow-Headers", "Content-Type"),
   ("Access-Control-Max-Age", "3600")]

/-- The headers used for every non-OPTIONS response. -/
def responseHeaders : List (String × String) :=
  [("Access-Control-Allow-Origin", "*"), ("Content-Type", "application/json")]

/-- A JSON error response `{"error": msg}` with the given status. -/
def errorResponse (msg : String) (status : Nat) : Response :=
  ⟨RBody.json [("error", msg)], status, responseHeaders⟩

/-- The existence poll of src/main.py lines 129-141: up to `fuel` checks
starting at attempt index `attempt`; each failed check is followed by a
2 second sleep; an exception from `exists()` propagates.  Returns the
`file_found` flag (or the raised message) with the trace of events. -/
def pollLoop (w : World) : Nat → Nat → Except String Bool × List Event
  | 0, _ => (Except.ok false, [])
  | fuel + 1, attempt =>
    match w.existsResult attempt with
    | Except.error e => (Except.error e, [Event.checkExists attempt])
    | Except.ok true => (Except.ok true, [Event.checkExists attempt])
    | Except.ok false =>
      let rest := pollLoop w fuel (attempt + 1)
      (rest.1, Event.checkExists attempt :: Event.sleepSec 2 :: rest.2)

/-- The message of src/main.py line 144 when the poll never finds the
blob. -/
def notFoundMessage (cfg : Config) (path : String) : String :=
  "Input file not found in GCS after 5 attempts: gs://" ++ cfg.inputBucket ++
    "/" ++ path ++ ". Please check filename or upload status."

/-- The body of the `try` block (src/main.py lines 120-189) after
validation, given the taskId and fileExtension values.  `Except.error e`
is an exception escaping to the `except` clause; the event list records
the storage calls performed before returning or raising. -/
def tryBlock (cfg : Config) (exportGlb : Mesh → List Nat) (tv fv : JVal)
    (w : World) : Except String Response × List Event :=
  let path := "uploads/" ++ pyStr tv ++ "." ++ pyStr fv
  let poll := pollLoop w 5 0
  match poll.1 with
  | Except.error e => (Except.error e, poll.2)
  | Except.ok false =>
    (Except.ok (errorResponse (notFoundMessage cfg path) 404), poll.2)
  | Except.ok true =>
    let evs1 := poll.2 ++ [Event.download]
    match w.downloadResult with
    | Except.error e => (Except.error e, evs1)
    | Except.ok _fileContents =>
      let evs2 := evs1 ++ [Event.writeTmp ("/tmp/" ++ pyStr tv ++ "." ++ pyStr fv)]
      match w.writeTmpResult with
      | Except.error e => (Except.error e, evs2)
      | Except.ok _ =>
        let glbData := exportGlb create_humanoid
        let outputBlobName := pyStr tv ++ ".glb"
        let evs3 := evs2 ++
          [Event.upload cfg.outputBucket outputBlobName glbData "model/gltf-binary"]
        match w.uploadResult with
        | Except.error e => (Except.error e, evs3)
        | Except.ok _ =>
          let evs4 := evs3 ++ [Event.makePublic cfg.outputBucket outputBlobName]
          match w.makePublicResult with
          | Except.error e => (Except.error e, evs4)
          | Except.ok _ =>
            (Except.ok ⟨RBody.json
              [("model_url", w.publicUrl),
               ("task_id", pyStr tv),
               ("message", "3D model generated and uploaded successfully!")],
              200, responseHeaders⟩, evs4)

/-- The `except` clause of src/main.py lines 191-198: wrap the exception
message, answer 404 when it contains the not-found marker, else 500. -/
def handleException (e : String) : Response :=
  let msg := "3D Model generation or GCS access failed: " ++ e
  if strContains e "File not found in GCS" then errorResponse msg 404
  else errorResponse msg 500

/-- Combine the try block's outcome with the except clause: a normal
return passes through, an exception is turned into a response by
`handleException`; the event trace is kept either way. -/
def postTry (p : Except String Response × List Event) : Response × List Event :=
  match p with
  | (Except.ok r, evs) => (r, evs)
  | (Except.error e, evs) => (handleException e, evs)

/-- The `makemodel` HTTP handler of src/main.py, parameterised over the
deterministic GLB exporter (`trimesh` export) and the storage oracle.
Returns the response and the trace of storage side effects. -/
def makemodel (cfg : Config) (exportGlb : Mesh → List Nat)
    (req : HttpRequest) (w : World) : Response × List Event :=
  if req.method = "OPTIONS" then
    (⟨RBody.raw "", 204, corsHeaders⟩, [])
  else
    match req.body with
    | none => (errorResponse "No JSON data found in request body." 400, [])
    | some d =>
      if d.isEmpty then
        (errorResponse "No JSON data found in request body." 400, [])
      else
        let received_task_id := dictGet "taskId" d
        let received_file_extension := dictGet "fileExtension" d
        if truthyOpt received_task_id = false then
          (errorResponse "Missing \x27taskId\x27 in request body." 400, [])
        else if truthyOpt received_file_extension = false then
          (errorResponse "Missing \x27fileExtension\x27 in request body." 400, [])
        else
          let tv := received_task_id.getD JVal.jnull
          let fv := received_file_extension.getD JVal.jnull
          postTry (tryBlock cfg exportGlb tv fv w)

/- ### Trace observations -/

/-- The data payloads of the upload events of a trace. -/
def uploadedBytes (evs : List Event) : List (List Nat) :=
  evs.filterMap fun e =>
    match e with
    | Event.upload _ _ d _ => some d
    | _ => none

/-- Does a trace write to the output bucket (upload or make-public)? -/
def writesOutput (evs : List Event) : Bool :=
  evs.any fun e =>
    match e with
    | Event.upload _ _ _ _ => true
    | Event.makePublic _ _ => true
    | _ => false

/-- Does a trace contain a download attempt? -/
def hasDownload (evs : List Event) : Bool :=
  evs.any fun e =>
    match e with
    | Event.download => true
    | _ => false

/-- The number of existence checks in a trace. -/
def countChecks (evs : List Event) : Nat :=
  (evs.filter fun e =>
    match e with
    | Event.checkExists _ => true
    | _ => false).length

/-- The full trace of a poll that never finds the blob: five existence
checks, each followed by a 2 second sleep. -/
def absentTrace : List Event :=
  [Event.checkExists 0, Event.sleepSec 2, Event.checkExists 1, Event.sleepSec 2,
   Event.checkExists 2, Event.sleepSec 2, Event.checkExists 3, Event.sleepSec 2,
   Event.checkExists 4, Event.sleepSec 2]

/- ### Variant 1 (the image-echo function), modelled from the spec -/

/-- Modelled from the spec: the content type the first variant derives
from the file extension (spec section 8, first bullet: jpg/jpeg to
image/jpeg, png to image/png, gif to image/gif, else image/extension).
The first variant's source is not under src/; only the JSON variant
(src/main.py) is. -/
def contentTypeFor (ext : String) : String :=
  if ext = "jpg" || ext = "jpeg" then "image/jpeg"
  else if ext = "png" then "image/png"
  else if ext = "gif" then "image/gif"
  else "image/" ++ ext

/-- Modelled from the spec: the first variant's handler, whose source is
not under src/.  Per spec sections 6 and 8 it validates `taskId` and
`fileExtension` (400 on a missing body or field), answers 404 when the
blob does not exist, and otherwise returns 200 whose body is exactly the
downloaded blob bytes with `Content-Type` derived from the extension.
Bytes are carried as a raw body string of byte values. -/
def getimage (req : HttpRequest) (w : World) : Response × List Event :=
  if req.method = "OPTIONS" then
    (⟨RBody.raw "", 204, corsHeaders⟩, [])
  else
    match req.body with
    | none => (errorResponse "No JSON data found in request body." 400, [])
    | some d =>
      if truthyOpt (dictGet "taskId" d) = false then
        (errorResponse "Missing \x27taskId\x27 in request body." 400, [])
      else if truthyOpt (dictGet "fileExtension" d) = false then
        (errorResponse "Missing \x27fileExtension\x27 in request body." 400, [])
      else
        let fv := (dictGet "fileExtension" d).getD JVal.jnull
        match w.existsResult 0 with
        | Except.error e => (handleException e, [Event.checkExists 0])
        | Except.ok false =>
          (errorResponse "File not found in GCS." 404, [Event.checkExists 0])
        | Except.ok true =>
          match w.downloadResult with
          | Except.error e => (handleException e, [Event.checkExists 0, Event.download])
          | Except.ok bytesList =>
            (⟨RBody.raw (String.intercalate "," (bytesList.map toString)),
              200,
              [("Access-Control-Allow-Origin", "*"),
               ("Content-Type", contentTypeFor (pyStr fv))]⟩,
             [Event.checkExists 0, Event.download])

/- ### Concrete fixtures used by witnesses -/

/-- A concrete deployment configuration. -/
def cfg0 : Config := ⟨"in-bucket", "out-bucket"⟩

/-- A concrete GLB exporter assigning a fixed byte string per mesh length. -/
def eg0 : Mesh → List Nat := fun m => [103, 108, 84, 70, m.length]

/-- A concrete valid POST request with taskId "t1" and fileExtension "png". -/
def req0 : HttpRequest :=
  ⟨"POST", some [("taskId", JVal.jstr "t1"), ("fileExtension", JVal.jstr "png")]⟩

/-- A storage world where the blob exists at once and every call succeeds. -/
def wOk : World :=
  { existsResult := fun _ => Except.ok true
    downloadResult := Except.ok [7, 7, 7]
    writeTmpResult := Except.ok ()
    uploadResult := Except.ok ()
    makePublicResult := Except.ok ()
    publicUrl := "https://storage.googleapis.com/out-bucket/t1.glb" }

/-- Like `wOk` but with different downloaded image bytes. -/
def wOk2 : World :=
  { existsResult := fun _ => Except.ok true
    downloadResult := Except.ok [9]
    writeTmpResult := Except.ok ()
    uploadResult := Except.ok ()
    makePublicResult := Except.ok ()
    publicUrl := "https://storage.googleapis.com/out-bucket/t1.glb" }

/-- A storage world where the blob never exists. -/
def wAbsent : World :=
  { existsResult := fun _ => Except.ok false
    downloadResult := Except.ok []
    writeTmpResult := Except.ok ()
    uploadResult := Except.ok ()
    makePublicResult := Except.ok ()
    publicUrl := "" }

/-- A storage world where the first existence check raises. -/
def wRaise : World :=
  { existsResult := fun _ => Except.error "boom"
    downloadResult := Except.ok []
    writeTmpResult := Except.ok ()
    uploadResult := Except.ok ()
    makePublicResult := Except.ok ()
    publicUrl := "" }

/- ### Helper lemmas and claim theorems -/



/-- Helper: the poll loop performs only existence checks and sleeps: it
never writes output, never downloads, and uploads nothing. -/
lemma pollLoop_events (w : World) :
    ∀ n a, writesOutput (pollLoop w n a).2 = false ∧
      hasDownload (pollLoop w n a).2 = false ∧
      uploadedBytes (pollLoop w n a).2 = []
  | 0, _ => by simp [pollLoop, writesOutput, hasDownload, uploadedBytes]
  | n + 1, a => by
    have ih := pollLoop_events w n (a + 1)
    cases hx : w.existsResult a with
    | error e =>
      simp [pollLoop, hx, writesOutput, hasDownload, uploadedBytes]
    | ok b =>
      cases b with
      | true => simp [pollLoop, hx, writesOutput, hasDownload, uploadedBytes]
      | false =>
        simp only [pollLoop, hx, writesOutput, hasDownload, uploadedBytes,
          List.any_cons, List.filterMap_cons] at ih ⊢
        simpa using ih

/-- Helper: when the blob never exists, the 5-attempt poll returns
file_found = false after five checks, each followed by a 2 second sleep. -/
lemma pollLoop_never (w : World) (h : ∀ i, w.existsResult i = Except.ok false) :
    pollLoop w 5 0 =
      (Except.ok false,
       [Event.checkExists 0, Event.sleepSec 2, Event.checkExists 1, Event.sleepSec 2,
        Event.checkExists 2, Event.sleepSec 2, Event.checkExists 3, Event.sleepSec 2,
        Event.checkExists 4, Event.sleepSec 2]) := by
  simp [pollLoop, h 0, h 1, h 2, h 3, h 4]

/-- Helper: when the blob exists at the first check, the poll returns
file_found = true after a single check and no sleep. -/
lemma pollLoop_first (w : World) (h : w.existsResult 0 = Except.ok true) :
    pollLoop w 5 0 = (Except.ok true, [Event.checkExists 0]) := by
  simp [pollLoop, h]

/-- Helper: a normal (non-raising) run of the try block returns either
status 200, or the poll-failure 404 having performed no download and no
output write. -/
lemma tryBlock_ok_cases (cfg : Config) (eg : Mesh → List Nat) (tv fv : JVal)
    (w : World) (r : Response) (evs : List Event)
    (h : tryBlock cfg eg tv fv w = (Except.ok r, evs)) :
    r.status = 200 ∨
      (r.status = 404 ∧ writesOutput evs = false ∧ hasDownload evs = false) := by
  have hp := pollLoop_events w 5 0
  simp only [tryBlock] at h
  split at h
  · exact absurd h (by simp)
  · rw [Prod.mk.injEq] at h
    obtain ⟨h1, h2⟩ := h
    cases h1
    right
    subst h2
    exact ⟨rfl, hp.1, hp.2.1⟩
  · split at h
    · exact absurd h (by simp)
    · split at h
      · exact absurd h (by simp)
      · split at h
        · exact absurd h (by simp)
        · split at h
          · exact absurd h (by simp)
          · rw [Prod.mk.injEq] at h
            obtain ⟨h1, h2⟩ := h
            cases h1
            left
            rfl

/-- Helper: every byte string uploaded during the try block is the GLB
export of the fixed humanoid mesh. -/
lemma tryBlock_uploadedBytes (cfg : Config) (eg : Mesh → List Nat) (tv fv : JVal)
    (w : World) (g : List Nat)
    (hg : g ∈ uploadedBytes (tryBlock cfg eg tv fv w).2) :
    g = eg create_humanoid := by
  have hp := (pollLoop_events w 5 0).2.2
  simp only [tryBlock] at hg
  split at hg
  · simp only [uploadedBytes] at hg hp
    rw [hp] at hg
    exact absurd hg (by simp)
  · simp only [uploadedBytes] at hg hp
    rw [hp] at hg
    exact absurd hg (by simp)
  · split at hg
    · simp only [uploadedBytes, List.filterMap_append] at hg hp
      rw [hp] at hg
      simp at hg
    · split at hg
      · simp only [uploadedBytes, List.filterMap_append] at hg hp
        rw [hp] at hg
        simp at hg
      · split at hg
        · simp only [uploadedBytes, List.filterMap_append] at hg hp
          rw [hp] at hg
          simp at hg
          exact hg
        · split at hg
          · simp only [uploadedBytes, List.filterMap_append] at hg hp
            rw [hp] at hg
            simp at hg
            exact hg
          · simp only [uploadedBytes, List.filterMap_append] at hg hp
            rw [hp] at hg
            simp at hg
            exact hg

/-- Helper: once validation passes, the handler is the try block composed
with the except clause. -/
lemma makemodel_valid (cfg : Config) (eg : Mesh → List Nat) (req : HttpRequest)
    (w : World) (d : JsonDict) (tv fv : JVal)
    (hm : req.method ≠ "OPTIONS") (hb : req.body = some d)
    (hne : d.isEmpty = false)
    (ht : dictGet "taskId" d = some tv) (htv : truthy tv = true)
    (hf : dictGet "fileExtension" d = some fv) (hfv : truthy fv = true) :
    makemodel cfg eg req w = postTry (tryBlock cfg eg tv fv w) := by
  simp [makemodel, hm, hb, hne, ht, hf, truthyOpt, htv, hfv]

/-- Helper: every byte string uploaded during any run of the handler is
the GLB export of the fixed humanoid mesh. -/
lemma makemodel_uploadedBytes (cfg : Config) (eg : Mesh → List Nat)
    (req : HttpRequest) (w : World) (g : List Nat)
    (hg : g ∈ uploadedBytes (makemodel cfg eg req w).2) :
    g = eg create_humanoid := by
  simp only [makemodel] at hg
  split at hg
  · exact absurd hg (by simp [uploadedBytes])
  · split at hg
    · exact absurd hg (by simp [uploadedBytes])
    · split at hg
      · exact absurd hg (by simp [uploadedBytes])
      · split at hg
        · exact absurd hg (by simp [uploadedBytes])
        · split at hg
          · exact absurd hg (by simp [uploadedBytes])
          · simp only [postTry] at hg
            split at hg
            · rename_i heq
              exact tryBlock_uploadedBytes _ _ _ _ _ _ (by rw [heq]; exact hg)
            · rename_i heq
              exact tryBlock_uploadedBytes _ _ _ _ _ _ (by rw [heq]; exact hg)

/-- Helper: a validated request whose blob never exists yields the 404
not-found error response after the full five-check poll trace. -/
lemma makemodel_neverExists (cfg : Config) (eg : Mesh → List Nat)
    (req : HttpRequest) (w : World) (d : JsonDict) (tv fv : JVal)
    (hm : req.method ≠ "OPTIONS") (hb : req.body = some d)
    (hne : d.isEmpty = false)
    (ht : dictGet "taskId" d = some tv) (htv : truthy tv = true)
    (hf : dictGet "fileExtension" d = some fv) (hfv : truthy fv = true)
    (habs : ∀ i, w.existsResult i = Except.ok false) :
    makemodel cfg eg req w =
      (errorResponse
        (notFoundMessage cfg ("uploads/" ++ pyStr tv ++ "." ++ pyStr fv)) 404,
       absentTrace) := by
  rw [makemodel_valid cfg eg req w d tv fv hm hb hne ht htv hf hfv]
  simp [tryBlock, pollLoop_never w habs, postTry, absentTrace]

/-- Claim C2: for every request with truthy taskId and fileExtension whose
blob never exists, the handler checks existence exactly 5 times with a 2
second sleep between consecutive checks, returns HTTP 404 with a JSON
body of the form with key error, and attempts no download and no upload. -/
theorem C2_blob_never_exists_404 (cfg : Config) (eg : Mesh → List Nat)
    (req : HttpRequest) (w : World) (d : JsonDict) (tv fv : JVal)
    (hm : req.method ≠ "OPTIONS") (hb : req.body = some d)
    (hne : d.isEmpty = false)
    (ht : dictGet "taskId" d = some tv) (htv : truthy tv = true)
    (hf : dictGet "fileExtension" d = some fv) (hfv : truthy fv = true)
    (habs : ∀ i, w.existsResult i = Except.ok false) :
    (makemodel cfg eg req w).1.status = 404 ∧
    (∃ s, (makemodel cfg eg req w).1.body = RBody.json [("error", s)]) ∧
    (makemodel cfg eg req w).2 = absentTrace ∧
    countChecks (makemodel cfg eg req w).2 = 5 ∧
    hasDownload (makemodel cfg eg req w).2 = false ∧
    writesOutput (makemodel cfg eg req w).2 = false := by
  rw [makemodel_neverExists cfg eg req w d tv fv hm hb hne ht htv hf hfv habs]
  exact ⟨rfl, ⟨_, rfl⟩, rfl,
    show countChecks absentTrace = 5 by decide,
    show hasDownload absentTrace = false by decide,
    show writesOutput absentTrace = false by decide⟩

/-- Witness for C2 at a concrete request and a storage world whose blob
never exists. -/
theorem C2_witness :
    (makemodel cfg0 eg0 req0 wAbsent).1.status = 404 ∧
    countChecks (makemodel cfg0 eg0 req0 wAbsent).2 = 5 ∧
    hasDownload (makemodel cfg0 eg0 req0 wAbsent).2 = false ∧
    writesOutput (makemodel cfg0 eg0 req0 wAbsent).2 = false := by
  have h := C2_blob_never_exists_404 cfg0 eg0 req0 wAbsent
    [("taskId", JVal.jstr "t1"), ("fileExtension", JVal.jstr "png")]
    (JVal.jstr "t1") (JVal.jstr "png")
    (by decide) rfl (by decide) (by decide) (by decide) (by decide) (by decide)
    (fun _ => rfl)
  exact ⟨h.1, h.2.2.2.1, h.2.2.2.2.1, h.2.2.2.2.2⟩

/-- Claim C6: every OPTIONS request, regardless of body, gets HTTP 204
with an empty body and CORS headers including
Access-Control-Allow-Origin star, with no validation and no storage
access (empty event trace). -/
theorem C6_options_preflight (cfg : Config) (eg : Mesh → List Nat)
    (req : HttpRequest) (w : World) (hm : req.method = "OPTIONS") :
    makemodel cfg eg req w = (⟨RBody.raw "", 204, corsHeaders⟩, []) ∧
    ("Access-Control-Allow-Origin", "*") ∈ corsHeaders := by
  refine ⟨by simp [makemodel, hm], by decide⟩

/-- Witness for C6 at a concrete OPTIONS request. -/
theorem C6_witness :
    makemodel cfg0 eg0 ⟨"OPTIONS", none⟩ wOk = (⟨RBody.raw "", 204, corsHeaders⟩, []) ∧
    ("Access-Control-Allow-Origin", "*") ∈ corsHeaders :=
  C6_options_preflight cfg0 eg0 ⟨"OPTIONS", none⟩ wOk rfl

/-- Counterexample for C7 as stated: create_humanoid concatenates six
primitives, not five. -/
theorem C7_counterexample :
    create_humanoid.length ≠ 5 ∧ create_humanoid.length = 6 := by
  decide

/-- Claim C7 (amended): the generated artifact is always the mesh produced
by create_humanoid, the concatenation of exactly six rigid primitives:
one icosphere head of radius 0.2 centered at (0, 0, 1.8), one torso
cylinder, two arm cylinders and two leg cylinders, each placed with a
fixed transform; every uploaded artifact is its GLB export. -/
theorem C7_six_primitives :
    create_humanoid =
      [create_sphere 0.2 ⟨0, 0, 1.8⟩,
       create_cylinder 0.3 0.8 (some (PyTransform.translationMatrix ⟨0, 0, 0.8⟩)),
       create_cylinder 0.1 0.6
         (some (PyTransform.composeMatrix ⟨-0.6, 0, 1.4⟩ ⟨0, 1/2, 0⟩)),
       create_cylinder 0.1 0.6
         (some (PyTransform.composeMatrix ⟨0.6, 0, 1.4⟩ ⟨0, -(1/2), 0⟩)),
       create_cylinder 0.12 0.7 (some (PyTransform.translationMatrix ⟨-0.15, 0, 0.35⟩)),
       create_cylinder 0.12 0.7 (some (PyTransform.translationMatrix ⟨0.15, 0, 0.35⟩))] ∧
    create_humanoid.length = 6 ∧
    (∀ (cfg : Config) (eg : Mesh → List Nat) (req : HttpRequest) (w : World)
      (g : List Nat), g ∈ uploadedBytes (makemodel cfg eg req w).2 →
      g = eg create_humanoid) := by
  refine ⟨by norm_num [create_humanoid, create_sphere, create_cylinder, Vec3.mk.injEq],
    by decide, ?_⟩
  intro cfg eg req w g hg
  exact makemodel_uploadedBytes cfg eg req w g hg

/-- Witness for C7 at a concrete successful run. -/
theorem C7_witness :
    [103, 108, 84, 70, 6] ∈ uploadedBytes (makemodel cfg0 eg0 req0 wOk).2 ∧
    ([103, 108, 84, 70, 6] : List Nat) = eg0 create_humanoid :=
  ⟨by decide, C7_six_primitives.2.2 cfg0 eg0 req0 wOk [103, 108, 84, 70, 6] (by decide)⟩

/-- Claim C1: two requests with the same taskId and fileExtension whose
blobs exist but hold different image bytes upload identical GLB bytes:
the mesh generation never reads the downloaded content, so every upload
carries the export of the fixed humanoid mesh. -/
theorem C1_glb_independent_of_image (cfg : Config) (eg : Mesh → List Nat)
    (req1 req2 : HttpRequest) (d1 d2 : JsonDict) (w1 w2 : World)
    (b1 b2 g1 g2 : List Nat)
    (hb1 : req1.body = some d1) (hb2 : req2.body = some d2)
    (hsameTask : dictGet "taskId" d1 = dictGet "taskId" d2)
    (hsameExt : dictGet "fileExtension" d1 = dictGet "fileExtension" d2)
    (hx1 : ∀ i, w1.existsResult i = Except.ok true)
    (hx2 : ∀ i, w2.existsResult i = Except.ok true)
    (hdl1 : w1.downloadResult = Except.ok b1)
    (hdl2 : w2.downloadResult = Except.ok b2)
    (hdiff : b1 ≠ b2)
    (hg1 : g1 ∈ uploadedBytes (makemodel cfg eg req1 w1).2)
    (hg2 : g2 ∈ uploadedBytes (makemodel cfg eg req2 w2).2) :
    g1 = g2 ∧ g1 = eg create_humanoid := by
  have h1 := makemodel_uploadedBytes cfg eg req1 w1 g1 hg1
  have h2 := makemodel_uploadedBytes cfg eg req2 w2 g2 hg2
  exact ⟨h1.trans h2.symm, h1⟩

/-- Witness for C1 at two concrete worlds downloading different bytes. -/
theorem C1_witness :
    wOk.downloadResult = Except.ok [7, 7, 7] ∧
    wOk2.downloadResult = Except.ok [9] ∧
    [103, 108, 84, 70, 6] ∈ uploadedBytes (makemodel cfg0 eg0 req0 wOk).2 ∧
    [103, 108, 84, 70, 6] ∈ uploadedBytes (makemodel cfg0 eg0 req0 wOk2).2 ∧
    ([103, 108, 84, 70, 6] : List Nat) = [103, 108, 84, 70, 6] ∧
    ([103, 108, 84, 70, 6] : List Nat) = eg0 create_humanoid := by
  have h := C1_glb_independent_of_image cfg0 eg0 req0 req0
    [("taskId", JVal.jstr "t1"), ("fileExtension", JVal.jstr "png")]
    [("taskId", JVal.jstr "t1"), ("fileExtension", JVal.jstr "png")]
    wOk wOk2 [7, 7, 7] [9] [103, 108, 84, 70, 6] [103, 108, 84, 70, 6]
    rfl rfl rfl rfl (fun _ => rfl) (fun _ => rfl) rfl rfl (by decide)
    (by decide) (by decide)
  exact ⟨rfl, rfl, by decide, by decide, h.1, h.2⟩

/-- Claim C3: every non-OPTIONS request whose body is not parseable JSON,
or whose JSON body lacks taskId or lacks fileExtension, gets HTTP 400
with a JSON body of the form with key error and an empty event trace (no
storage contact). -/
theorem C3_unparseable_or_missing_field_400 (cfg : Config) (eg : Mesh → List Nat)
    (req : HttpRequest) (w : World)
    (hm : req.method ≠ "OPTIONS")
    (hbad : req.body = none ∨
      ∃ d, req.body = some d ∧
        (dictGet "taskId" d = none ∨ dictGet "fileExtension" d = none)) :
    (makemodel cfg eg req w).1.status = 400 ∧
    (∃ s, (makemodel cfg eg req w).1.body = RBody.json [("error", s)]) ∧
    (makemodel cfg eg req w).2 = [] := by
  rcases hbad with hnone | ⟨d, hd, hmiss⟩
  · have h : makemodel cfg eg req w =
        (errorResponse "No JSON data found in request body." 400, []) := by
      simp [makemodel, hm, hnone]
    rw [h]
    exact ⟨rfl, ⟨_, rfl⟩, rfl⟩
  · by_cases he : d.isEmpty
    · have h : makemodel cfg eg req w =
          (errorResponse "No JSON data found in request body." 400, []) := by
        simp [makemodel, hm, hd, he]
      rw [h]
      exact ⟨rfl, ⟨_, rfl⟩, rfl⟩
    · rcases hmiss with h1 | h2
      · have h : makemodel cfg eg req w =
            (errorResponse "Missing \x27taskId\x27 in request body." 400, []) := by
          simp [makemodel, hm, hd, he, h1, truthyOpt]
        rw [h]
        exact ⟨rfl, ⟨_, rfl⟩, rfl⟩
      · by_cases ht : truthyOpt (dictGet "taskId" d) = false
        · have h : makemodel cfg eg req w =
              (errorResponse "Missing \x27taskId\x27 in request body." 400, []) := by
            simp [makemodel, hm, hd, he, ht]
          rw [h]
          exact ⟨rfl, ⟨_, rfl⟩, rfl⟩
        · have ht2 : truthyOpt (dictGet "taskId" d) = true := by
            cases hcase : truthyOpt (dictGet "taskId" d) with
            | false => exact absurd hcase ht
            | true => rfl
          have hf2 : truthyOpt (dictGet "fileExtension" d) = false := by
            rw [h2]; rfl
          have h : makemodel cfg eg req w =
              (errorResponse "Missing \x27fileExtension\x27 in request body." 400, []) := by
            simp [makemodel, hm, hd, he, ht2, hf2]
          rw [h]
          exact ⟨rfl, ⟨_, rfl⟩, rfl⟩

/-- Witness for C3 at a concrete request without a JSON body. -/
theorem C3_witness :
    (makemodel cfg0 eg0 ⟨"POST", none⟩ wOk).1.status = 400 ∧
    (∃ s, (makemodel cfg0 eg0 ⟨"POST", none⟩ wOk).1.body = RBody.json [("error", s)]) ∧
    (makemodel cfg0 eg0 ⟨"POST", none⟩ wOk).2 = [] :=
  C3_unparseable_or_missing_field_400 cfg0 eg0 ⟨"POST", none⟩ wOk
    (by decide) (Or.inl rfl)

/-- Claim C9: a taskId or fileExtension that is present but falsy (the
empty string in particular) is treated like a missing field: the handler
returns the corresponding HTTP 400 JSON error response, because the
checks use Python truthiness rather than key presence. -/
theorem C9_falsy_field_400 (cfg : Config) (eg : Mesh → List Nat)
    (req : HttpRequest) (w : World) (d : JsonDict)
    (hm : req.method ≠ "OPTIONS") (hb : req.body = some d)
    (hne : d.isEmpty = false) :
    (∀ tv, dictGet "taskId" d = some tv → truthy tv = false →
      makemodel cfg eg req w =
        (errorResponse "Missing \x27taskId\x27 in request body." 400, [])) ∧
    (∀ tv fv, dictGet "taskId" d = some tv → truthy tv = true →
      dictGet "fileExtension" d = some fv → truthy fv = false →
      makemodel cfg eg req w =
        (errorResponse "Missing \x27fileExtension\x27 in request body." 400, [])) := by
  constructor
  · intro tv ht htv
    simp [makemodel, hm, hb, hne, ht, truthyOpt, htv]
  · intro tv fv ht htv hf hfv
    simp [makemodel, hm, hb, hne, ht, hf, truthyOpt, htv, hfv]

/-- Witness for C9 at a concrete request whose taskId is the empty string. -/
theorem C9_witness :
    makemodel cfg0 eg0
        ⟨"POST", some [("taskId", JVal.jstr ""), ("fileExtension", JVal.jstr "png")]⟩ wOk =
      (errorResponse "Missing \x27taskId\x27 in request body." 400, []) :=
  (C9_falsy_field_400 cfg0 eg0
      ⟨"POST", some [("taskId", JVal.jstr ""), ("fileExtension", JVal.jstr "png")]⟩ wOk
      [("taskId", JVal.jstr ""), ("fileExtension", JVal.jstr "png")]
      (by decide) rfl (by decide)).1
    (JVal.jstr "") (by decide) (by decide)

/-- Claim C4: whenever the download/generate/upload block raises with
message e, the handler returns the wrapped JSON error body with status
404 if e contains the marker string File not found in GCS and 500
otherwise; no other status arises from the catch-all path. -/
theorem C4_catch_all_404_or_500 (cfg : Config) (eg : Mesh → List Nat)
    (req : HttpRequest) (w : World) (d : JsonDict) (tv fv : JVal)
    (e : String) (evs : List Event)
    (hm : req.method ≠ "OPTIONS") (hb : req.body = some d)
    (hne : d.isEmpty = false)
    (ht : dictGet "taskId" d = some tv) (htv : truthy tv = true)
    (hf : dictGet "fileExtension" d = some fv) (hfv : truthy fv = true)
    (htry : tryBlock cfg eg tv fv w = (Except.error e, evs)) :
    (makemodel cfg eg req w).1.status =
      (if strContains e "File not found in GCS" then 404 else 500) ∧
    ((makemodel cfg eg req w).1.status = 404 ∨
      (makemodel cfg eg req w).1.status = 500) ∧
    (makemodel cfg eg req w).1.body =
      RBody.json [("error", "3D Model generation or GCS access failed: " ++ e)] ∧
    (makemodel cfg eg req w).2 = evs := by
  rw [makemodel_valid cfg eg req w d tv fv hm hb hne ht htv hf hfv, htry]
  by_cases hc : strContains e "File not found in GCS" = true
  · simp [postTry, handleException, hc, errorResponse]
  · simp [postTry, handleException, hc, errorResponse]

/-- Witness for C4 at a concrete world whose existence check raises. -/
theorem C4_witness :
    (makemodel cfg0 eg0 req0 wRaise).1.status = 500 ∧
    (makemodel cfg0 eg0 req0 wRaise).1.body =
      RBody.json [("error", "3D Model generation or GCS access failed: boom")] ∧
    (makemodel cfg0 eg0 req0 wRaise).2 = [Event.checkExists 0] := by
  have h := C4_catch_all_404_or_500 cfg0 eg0 req0 wRaise
    [("taskId", JVal.jstr "t1"), ("fileExtension", JVal.jstr "png")]
    (JVal.jstr "t1") (JVal.jstr "png") "boom" [Event.checkExists 0]
    (by decide) rfl (by decide) (by decide) (by decide) (by decide) (by decide)
    rfl
  refine ⟨?_, h.2.2.1, h.2.2.2⟩
  have hs := h.1
  rw [show strContains "boom" "File not found in GCS" = false from by decide] at hs
  simpa using hs

/-- Claim C5: for a validated request whose blob exists and where no
storage call raises, the handler uploads the generated GLB bytes to the
output bucket under taskId.glb, then makes that object public, and
returns HTTP 200 with a JSON body holding exactly the keys model_url
(the public URL), task_id (the received taskId) and message. -/
theorem C5_success_uploads_and_200 (cfg : Config) (eg : Mesh → List Nat)
    (req : HttpRequest) (w : World) (d : JsonDict) (tv fv : JVal)
    (bytesList : List Nat)
    (hm : req.method ≠ "OPTIONS") (hb : req.body = some d)
    (hne : d.isEmpty = false)
    (ht : dictGet "taskId" d = some tv) (htv : truthy tv = true)
    (hf : dictGet "fileExtension" d = some fv) (hfv : truthy fv = true)
    (hx : ∀ i, w.existsResult i = Except.ok true)
    (hdl : w.downloadResult = Except.ok bytesList)
    (hwt : w.writeTmpResult = Except.ok ())
    (hup : w.uploadResult = Except.ok ())
    (hmp : w.makePublicResult = Except.ok ()) :
    makemodel cfg eg req w =
      (⟨RBody.json [("model_url", w.publicUrl), ("task_id", pyStr tv),
          ("message", "3D model generated and uploaded successfully!")],
        200, responseHeaders⟩,
       [Event.checkExists 0, Event.download,
        Event.writeTmp ("/tmp/" ++ pyStr tv ++ "." ++ pyStr fv),
        Event.upload cfg.outputBucket (pyStr tv ++ ".glb")
          (eg create_humanoid) "model/gltf-binary",
        Event.makePublic cfg.outputBucket (pyStr tv ++ ".glb")]) := by
  rw [makemodel_valid cfg eg req w d tv fv hm hb hne ht htv hf hfv]
  simp [tryBlock, pollLoop_first w (hx 0), hdl, hwt, hup, hmp, postTry]

/-- Witness for C5 at a concrete fully-succeeding world. -/
theorem C5_witness :
    (makemodel cfg0 eg0 req0 wOk).1.status = 200 ∧
    (makemodel cfg0 eg0 req0 wOk).1.body =
      RBody.json [("model_url", "https://storage.googleapis.com/out-bucket/t1.glb"),
        ("task_id", "t1"),
        ("message", "3D model generated and uploaded successfully!")] ∧
    (makemodel cfg0 eg0 req0 wOk).2 =
      [Event.checkExists 0, Event.download, Event.writeTmp "/tmp/t1.png",
       Event.upload "out-bucket" "t1.glb" (eg0 create_humanoid) "model/gltf-binary",
       Event.makePublic "out-bucket" "t1.glb"] := by
  have h := C5_success_uploads_and_200 cfg0 eg0 req0 wOk
    [("taskId", JVal.jstr "t1"), ("fileExtension", JVal.jstr "png")]
    (JVal.jstr "t1") (JVal.jstr "png") [7, 7, 7]
    (by decide) rfl (by decide) (by decide) (by decide) (by decide) (by decide)
    (fun _ => rfl) rfl rfl rfl rfl
  rw [h]
  exact ⟨rfl, rfl, rfl⟩

/-- Claim C8: for a valid request naming an existing blob, the first
variant (modelled from the spec; its source is not under src/) returns
HTTP 200 whose body is exactly the downloaded bytes, with Content-Type
image/jpeg for jpg or jpeg, image/png for png, image/gif for gif, and
image/ext for any other extension ext. -/
theorem C8_variant1_echoes_bytes (req : HttpRequest) (w : World)
    (d : JsonDict) (tv fv : JVal) (bytesList : List Nat)
    (hm : req.method ≠ "OPTIONS") (hb : req.body = some d)
    (ht : dictGet "taskId" d = some tv) (htv : truthy tv = true)
    (hf : dictGet "fileExtension" d = some fv) (hfv : truthy fv = true)
    (hx : w.existsResult 0 = Except.ok true)
    (hdl : w.downloadResult = Except.ok bytesList) :
    (getimage req w).1.status = 200 ∧
    (getimage req w).1.body =
      RBody.raw (String.intercalate "," (bytesList.map toString)) ∧
    (getimage req w).1.headers =
      [("Access-Control-Allow-Origin", "*"),
       ("Content-Type", contentTypeFor (pyStr fv))] ∧
    contentTypeFor "jpg" = "image/jpeg" ∧
    contentTypeFor "jpeg" = "image/jpeg" ∧
    contentTypeFor "png" = "image/png" ∧
    contentTypeFor "gif" = "image/gif" ∧
    (∀ e2, e2 ≠ "jpg" → e2 ≠ "jpeg" → e2 ≠ "png" → e2 ≠ "gif" →
      contentTypeFor e2 = "image/" ++ e2) := by
  have hgi : getimage req w =
      (⟨RBody.raw (String.intercalate "," (bytesList.map toString)), 200,
        [("Access-Control-Allow-Origin", "*"),
         ("Content-Type", contentTypeFor (pyStr fv))]⟩,
       [Event.checkExists 0, Event.download]) := by
    simp [getimage, hm, hb, ht, hf, truthyOpt, htv, hfv, hx, hdl]
  rw [hgi]
  refine ⟨rfl, rfl, rfl, by decide, by decide, by decide, by decide, ?_⟩
  intro e2 h1 h2 h3 h4
  simp [contentTypeFor, h1, h2, h3, h4]

/-- Witness for C8 at a concrete existing png blob. -/
theorem C8_witness :
    (getimage req0 wOk).1.status = 200 ∧
    (getimage req0 wOk).1.body = RBody.raw "7,7,7" ∧
    (getimage req0 wOk).1.headers =
      [("Access-Control-Allow-Origin", "*"), ("Content-Type", "image/png")] := by
  have h := C8_variant1_echoes_bytes req0 wOk
    [("taskId", JVal.jstr "t1"), ("fileExtension", JVal.jstr "png")]
    (JVal.jstr "t1") (JVal.jstr "png") [7, 7, 7]
    (by decide) rfl (by decide) (by decide) (by decide) (by decide) rfl rfl
  refine ⟨h.1, ?_, ?_⟩
  · rw [h.2.1]
    rfl
  · rw [h.2.2.1]
    rfl

/-- Claim C10: on every 400 response the handler has performed no upload
and no make-public call, and on the 404 produced by the existence poll
the handler returns before the upload call, so the output bucket is
never written for that request. -/
theorem C10_no_output_write_on_400_or_poll_404 (cfg : Config)
    (eg : Mesh → List Nat) (req : HttpRequest) (w : World) :
    ((makemodel cfg eg req w).1.status = 400 →
      writesOutput (makemodel cfg eg req w).2 = false) ∧
    (∀ d tv fv,
      req.method ≠ "OPTIONS" → req.body = some d → d.isEmpty = false →
      dictGet "taskId" d = some tv → truthy tv = true →
      dictGet "fileExtension" d = some fv → truthy fv = true →
      (∀ i, w.existsResult i = Except.ok false) →
      (makemodel cfg eg req w).1.status = 404 ∧
      writesOutput (makemodel cfg eg req w).2 = false ∧
      hasDownload (makemodel cfg eg req w).2 = false) := by
  constructor
  · intro h400
    by_cases hm : req.method = "OPTIONS"
    · simp [makemodel, hm, writesOutput]
    · cases hb : req.body with
      | none => simp [makemodel, hm, hb, writesOutput]
      | some d =>
        by_cases he : d.isEmpty
        · simp [makemodel, hm, hb, he, writesOutput]
        · by_cases ht : truthyOpt (dictGet "taskId" d) = false
          · simp [makemodel, hm, hb, he, ht, writesOutput]
          · by_cases hf : truthyOpt (dictGet "fileExtension" d) = false
            · simp [makemodel, hm, hb, he, ht, hf, writesOutput]
            · cases hdt : dictGet "taskId" d with
              | none => exact absurd (by rw [hdt]; rfl) ht
              | some tv =>
                cases hdf : dictGet "fileExtension" d with
                | none => exact absurd (by rw [hdf]; rfl) hf
                | some fv =>
                  have htv : truthy tv = true := by
                    cases hcase : truthy tv with
                    | false => exact absurd (by rw [hdt]; simpa [truthyOpt] using hcase) ht
                    | true => rfl
                  have hfv : truthy fv = true := by
                    cases hcase : truthy fv with
                    | false => exact absurd (by rw [hdf]; simpa [truthyOpt] using hcase) hf
                    | true => rfl
                  have he2 : d.isEmpty = false := by
                    cases hcase : d.isEmpty with
                    | false => rfl
                    | true => exact absurd hcase he
                  rw [makemodel_valid cfg eg req w d tv fv hm hb he2 hdt htv hdf hfv]
                    at h400 ⊢
                  rcases htb : tryBlock cfg eg tv fv w with ⟨res, evs⟩
                  rw [htb] at h400
                  cases res with
                  | ok r =>
                    simp only [postTry] at h400 ⊢
                    rcases tryBlock_ok_cases cfg eg tv fv w r evs htb with
                      h200 | ⟨_, hw, _⟩
                    · rw [h200] at h400
                      exact absurd h400 (by decide)
                    · exact hw
                  | error e =>
                    simp only [postTry, handleException] at h400 ⊢
                    by_cases hc : strContains e "File not found in GCS" = true
                    · rw [if_pos hc] at h400
                      exact absurd h400 (by simp [errorResponse])
                    · rw [if_neg hc] at h400
                      exact absurd h400 (by simp [errorResponse])
  · intro d tv fv hm hb hne hdt htv hdf hfv habs
    rw [makemodel_neverExists cfg eg req w d tv fv hm hb hne hdt htv hdf hfv habs]
    exact ⟨rfl,
      show writesOutput absentTrace = false by decide,
      show hasDownload absentTrace = false by decide⟩

/-- Witness for C10 at a concrete body-less request and a concrete
never-existing blob. -/
theorem C10_witness :
    ((makemodel cfg0 eg0 ⟨"POST", none⟩ wOk).1.status = 400 ∧
      writesOutput (makemodel cfg0 eg0 ⟨"POST", none⟩ wOk).2 = false) ∧
    ((makemodel cfg0 eg0 req0 wAbsent).1.status = 404 ∧
      writesOutput (makemodel cfg0 eg0 req0 wAbsent).2 = false ∧
      hasDownload (makemodel cfg0 eg0 req0 wAbsent).2 = false) :=
  ⟨⟨by decide,
    (C10_no_output_write_on_400_or_poll_404 cfg0 eg0 ⟨"POST", none⟩ wOk).1 (by decide)⟩,
   (C10_no_output_write_on_400_or_poll_404 cfg0 eg0 req0 wAbsent).2
     [("taskId", JVal.jstr "t1"), ("fileExtension", JVal.jstr "png")]
     (JVal.jstr "t1") (JVal.jstr "png")
     (by decide) rfl (by decide) (by decide) (by decide) (by decide) (by decide)
     (fun _ => rfl)⟩


end MakeModel
